import Mathlib

/-!
Verification of the WVG-Web-Scrapers directory-to-record extraction pipeline.

The repository is a set of Python scraper scripts.  This file gives a shallow
embedding of the pure, data-transforming parts of those scripts — field
classification, deduplication, result-cap control flow, contact-URL
classification, error propagation across sources, tabular serialization and
the join-year filter — and proves or refutes the specification claims about
them.

Modelling conventions:
* A Python `str` is modelled as `List Char` (`PyStr`); all string helpers
  reimplement the exact CPython semantics used by the scripts (ASCII inputs).
* A DOM element is modelled by what the script's probes would read from it:
  each `find`/`find_element`/`locator` probe becomes one field.  A missing
  element (BeautifulSoup `None`, a Selenium `NoSuchElementException`, a
  Playwright timeout caught by the enclosing `except`) is `Option.none`.
* Wall-clock fields (`scraped_date`, `captured_at`) are omitted: they are
  `datetime.now()` I/O and no claim mentions them.
* Fallible fetches are `Except`; scanning loops over strings use an explicit
  fuel argument equal to the string length, so every function stays
  structurally recursive and kernel-computable.
-/

namespace WVG

/-- Python strings, modelled as character lists so that every operation is
kernel-computable. -/
abbrev PyStr := List Char

/-- The whitespace class of CPython's `str.strip` / `\s` (ASCII part). -/
def isWsChar (c : Char) : Bool :=
  c == ' ' || c == '\t' || c == '\n' || c == '\r' || c == '\x0b' || c == '\x0c'

/-- Python `str.strip()`. -/
def pyStrip (s : PyStr) : PyStr :=
  ((s.dropWhile isWsChar).reverse.dropWhile isWsChar).reverse

/-- Is `c` an ASCII upper-case letter. -/
def isUpperChar (c : Char) : Bool := 65 ≤ c.toNat && c.toNat ≤ 90

/-- Is `c` an ASCII lower-case letter. -/
def isLowerChar (c : Char) : Bool := 97 ≤ c.toNat && c.toNat ≤ 122

/-- Is `c` an ASCII digit. -/
def isDigitChar (c : Char) : Bool := 48 ≤ c.toNat && c.toNat ≤ 57

/-- The `\w` class of Python's `re` (ASCII part): letters, digits, underscore. -/
def isWordChar (c : Char) : Bool :=
  isUpperChar c || isLowerChar c || isDigitChar c || c == '_'

/-- Python `str.lower()` on one ASCII character. -/
def lowerChar (c : Char) : Char :=
  if isUpperChar c then Char.ofNat (c.toNat + 32) else c

/-- Python `str.lower()`. -/
def lowerStr (s : PyStr) : PyStr := s.map lowerChar

/-- Python `str.startswith(pat)`. -/
def pyStartsWith : PyStr → PyStr → Bool
  | [], _ => true
  | _ :: _, [] => false
  | a :: as, b :: bs => a == b && pyStartsWith as bs

/-- Python `pat in s` (substring containment). -/
def pyContains (pat : PyStr) : PyStr → Bool
  | [] => pyStartsWith pat []
  | c :: rest => pyStartsWith pat (c :: rest) || pyContains pat rest

/-- Python `str.split(sep)` for a one-character separator. -/
def splitOnChar (sep : Char) : PyStr → List PyStr
  | [] => [[]]
  | c :: rest =>
    if c = sep then [] :: splitOnChar sep rest
    else
      match splitOnChar sep rest with
      | [] => [[c]]
      | l :: ls => (c :: l) :: ls

/-- Python `str.split('\n')`. -/
def splitLines (s : PyStr) : List PyStr := splitOnChar '\n' s

/-- Python `sep.join(xs)`. -/
def pyJoin (sep : PyStr) : List PyStr → PyStr
  | [] => []
  | [s] => s
  | s :: rest => s ++ sep ++ pyJoin sep rest

/-- One step of Python `str.replace(pat, rep)` with fuel (the fuel is the
string length; a non-empty pattern consumes at least one character per
replacement, so the fuel never runs out). -/
def pyReplaceAux (pat rep : PyStr) : Nat → PyStr → PyStr
  | _, [] => []
  | 0, s => s
  | fuel + 1, c :: rest =>
    if pat ≠ [] ∧ pyStartsWith pat (c :: rest) then
      rep ++ pyReplaceAux pat rep fuel (List.drop (pat.length - 1) rest)
    else c :: pyReplaceAux pat rep fuel rest

/-- Python `s.replace(pat, rep)` (all occurrences, left to right). -/
def pyReplace (s pat rep : PyStr) : PyStr := pyReplaceAux pat rep s.length s

/-- Order-keeping duplicate removal.  The scripts use Python `list(set(xs))`,
whose iteration order is unspecified; we keep first occurrences. -/
def pyDedupAux (seen : List PyStr) : List PyStr → List PyStr
  | [] => []
  | x :: rest =>
    if seen.contains x then pyDedupAux seen rest
    else x :: pyDedupAux (seen ++ [x]) rest

/-- Duplicate removal used to model `list(set(xs))`. -/
def pyDedup (xs : List PyStr) : List PyStr := pyDedupAux [] xs

/-! ## ZZZWebScraperWVG.py (v1): `extract_founder_info` and `run_scraping`

A BeautifulSoup candidate element, modelled by what each probe of
`extract_founder_info` (lines 122-173) would read from it.  Each field holds
the first matching sub-element's text or href, `none` when `element.find`
returns `None`. -/
structure BsElement where
  /-- text of `element.find(['h1'..'h6'])`, the first heading. -/
  headingText : Option PyStr
  /-- text of `element.find('div', class_=re.compile(r'company|startup|name'))`. -/
  nameDivText : Option PyStr
  /-- text of `element.find('div', class_=re.compile(r'founder|ceo|director'))`. -/
  founderDivText : Option PyStr
  /-- href of `element.find('a', href=re.compile(r'mailto:'))`. -/
  mailtoHref : Option PyStr
  /-- href of `element.find('a', href=re.compile(r'linkedin\.com'))`. -/
  linkedinHref : Option PyStr
  /-- href of `element.find('a', href=re.compile(r'twitter\.com|x\.com'))`. -/
  twitterHref : Option PyStr
  /-- href of `element.find('a', href=re.compile(r'http'))`, the first link. -/
  httpHref : Option PyStr
  /-- Value of `element.get_text()`, used by the BetaKit region pre-filter. -/
  fullText : PyStr

/-- One extracted record (the dict built by the v1/v2 extractors; the
`scraped_date` timestamp is omitted, see the file header). -/
structure FounderRecord where
  founder_name : PyStr
  company_name : PyStr
  source : PyStr
  email : Option PyStr
  linkedin : Option PyStr
  twitter : Option PyStr
  website : Option PyStr
deriving DecidableEq, Repr

/-- Model of `extract_founder_info` (ZZZWebScraperWVG.py lines 122-173): classify one
candidate element into a record; `None` when neither a company name nor a
founder name was populated. -/
def extract_founder_info (e : BsElement) (source : PyStr) : Option FounderRecord :=
  let company_name :=
    match e.headingText with
    | some t => pyStrip t
    | none =>
      match e.nameDivText with
      | some t => pyStrip t
      | none => []
  let founder_name :=
    match e.founderDivText with
    | some t => pyStrip t
    | none => []
  let email := e.mailtoHref.map (fun h => pyReplace h "mailto:".data [])
  let linkedin := e.linkedinHref
  let twitter := e.twitterHref
  let website :=
    match e.httpHref with
    | some h =>
      if ¬ (pyContains "linkedin.com".data h ∨ pyContains "twitter.com".data h ∨
            pyContains "x.com".data h) then some h
      else none
    | none => none
  if company_name ≠ [] ∨ founder_name ≠ [] then
    some { founder_name := founder_name, company_name := company_name, source := source,
           email := email, linkedin := linkedin, twitter := twitter, website := website }
  else none

/-- Keywords of `filter_waterloo_region` (v1 lines 175-186). -/
def waterlooKeywords : List PyStr :=
  ["waterloo".data, "kitchener".data, "cambridge".data, "guelph".data, "kw".data,
   "kw region".data]

/-- Model of `filter_waterloo_region` (v1 lines 175-186). -/
def filter_waterloo_region (data : List FounderRecord) : List FounderRecord :=
  data.filter (fun f =>
    waterlooKeywords.any (fun k => pyContains k (lowerStr (f.company_name ++ [' '] ++ f.source))))

/-- One source of the v1 run: its label, the per-element pre-filter (the
BetaKit region check on `article.get_text()`, constantly true for the other
three sources) and the fetch outcome — `Except.error` models a `requests`
network error or a non-2xx `raise_for_status`, which the source's
`try/except` catches after zero elements were processed. -/
structure SourceCfg where
  label : PyStr
  keep : BsElement → Bool
  fetched : Except PyStr (List BsElement)

/-- One `scrape_*` call of v1 (e.g. `scrape_velocity_incubator`, lines 35-54):
on a fetch error the `except` block logs and leaves `founders_data` unchanged;
on success every kept candidate element is classified and truthy results are
appended. -/
def scrape_source (s : SourceCfg) : List FounderRecord :=
  match s.fetched with
  | .error _ => []
  | .ok elems => (elems.filter s.keep).filterMap (fun e => extract_founder_info e s.label)

/-- Model of `run_scraping` (v1 lines 225-242): process the sources in order, then
filter for the Waterloo region.  (The final `save_to_text` is file I/O.) -/
def run_scraping (srcs : List SourceCfg) : List FounderRecord :=
  filter_waterloo_region (srcs.map scrape_source).flatten

/-! ## ZZZWebScraperWVGv2.py: `extract_angel_list_info`, `extract_velocity_fund_info` -/

/-- A Selenium element as probed by `extract_angel_list_info`
(ZZZWebScraperWVGv2.py lines 164-197).  `find_element` raises
`NoSuchElementException` when nothing matches, so a `none` field means the
whole extraction lands in the `except` branch and returns `None`. -/
structure AngelElement where
  /-- text of `find_element("h1, h2, h3, .company-name, .startup-name")`. -/
  nameElemText : Option PyStr
  /-- text of `find_element(".founder, .ceo, .team-member")`. -/
  founderElemText : Option PyStr
  /-- href of `find_element("a[href*='http']")`. -/
  websiteHref : Option PyStr

/-- Model of `extract_angel_list_info` (v2 lines 164-197).  Note: unlike
`extract_founder_info`, it returns the record unconditionally once all three
probes succeed — there is no "only return if we have meaningful data" gate. -/
def extract_angel_list_info (e : AngelElement) : Option FounderRecord :=
  match e.nameElemText, e.founderElemText, e.websiteHref with
  | some nt, some ft, some wh =>
    some { founder_name := pyStrip ft, company_name := pyStrip nt,
           source := "AngelList".data,
           email := none, linkedin := none, twitter := none, website := some wh }
  | _, _, _ => none

/-- A BeautifulSoup element as probed by `extract_velocity_fund_info`
(v2 lines 281-316). -/
structure VfElement where
  headingText : Option PyStr
  nameDivText : Option PyStr
  founderDivText : Option PyStr
  /-- href of `element.find('a', href=re.compile(r'http'))`. -/
  httpHref : Option PyStr

/-- Model of `extract_velocity_fund_info` (v2 lines 281-316).  The first http link is
stored as the website without any hostname exclusion, and no email, linkedin
or twitter probe exists. -/
def extract_velocity_fund_info (e : VfElement) : Option FounderRecord :=
  let company_name :=
    match e.headingText with
    | some t => pyStrip t
    | none =>
      match e.nameDivText with
      | some t => pyStrip t
      | none => []
  let founder_name :=
    match e.founderDivText with
    | some t => pyStrip t
    | none => []
  let website := e.httpHref
  if company_name ≠ [] ∨ founder_name ≠ [] then
    some { founder_name := founder_name, company_name := company_name,
           source := "Velocity Fund".data,
           email := none, linkedin := none, twitter := none, website := website }
  else none

/-! ## ZZZWebScraperWVGv3.py: `scrape_dmz_improved` and the Velocity founder loop -/

/-- Skip words of the DMZ line classifier (v3 line 120). -/
def dmzSkipWords : List PyStr :=
  ["current".data, "alumni".data, "acquired".data, "visit company".data, "our team".data]

/-- Category tokens rejected as company names (v3 line 126). -/
def dmzCategories : List PyStr :=
  ["b2b".data, "b2c".data, "saas".data, "ai".data, "fintech".data, "healthtech".data,
   "edtech".data]

/-- City substrings marking a location line (v3 line 130). -/
def dmzCities : List PyStr :=
  ["toronto".data, "kitchener".data, "waterloo".data, "cambridge".data, "guelph".data,
   "ontario".data, "on".data, "markham".data, "etobicoke".data, "ottawa".data,
   "montreal".data, "vancouver".data, "calgary".data]

/-- Role substrings marking a founder line (v3 line 134). -/
def dmzRoles : List PyStr :=
  ["ceo".data, "founder".data, "co-founder".data, "president".data]

/-- Target-region keywords (v3 lines 139 and 195). -/
def dmzRegionKeywords : List PyStr :=
  ["waterloo".data, "kitchener".data, "cambridge".data, "guelph".data, "hamilton".data]

/-- Python `line.lower() in ['current', 'alumni', 'acquired', 'visit company', 'our team']`. -/
def dmzIsSkip (l : PyStr) : Bool := dmzSkipWords.contains (lowerStr l)

/-- Python `any(category in line.lower() for category in [...])`. -/
def dmzIsCategory (l : PyStr) : Bool := dmzCategories.any (fun c => pyContains c (lowerStr l))

/-- Python `any(city in line.lower() for city in [...])`. -/
def dmzIsCity (l : PyStr) : Bool := dmzCities.any (fun c => pyContains c (lowerStr l))

/-- Python `any(title in line.lower() for title in [...])`. -/
def dmzIsRole (l : PyStr) : Bool := dmzRoles.any (fun r => pyContains r (lowerStr l))

/-- A record of the v3 DMZ scraper (the dict of v3 lines 142-149; timestamp
omitted, `contact_info` is commented out in the source). -/
structure DmzRecord where
  founder_name : PyStr
  company_name : PyStr
  location : PyStr
  source : PyStr
deriving DecidableEq, Repr

/-- The line-classification loop of `scrape_dmz_improved` (v3 lines 117-135):
a left-to-right scan with an if/elif chain, accumulating the company name
(first plausible line, assigned once), the location (latest city line) and
every founder line. -/
def dmzClassifyLines : List PyStr → PyStr → PyStr → List PyStr → PyStr × PyStr × List PyStr
  | [], cn, loc, fs => (cn, loc, fs)
  | l :: rest, cn, loc, fs =>
    if dmzIsSkip l then dmzClassifyLines rest cn loc fs
    else if cn = [] ∧ 2 < l.length ∧ l.length < 100 then
      if ¬ dmzIsCategory l then dmzClassifyLines rest l loc fs
      else dmzClassifyLines rest cn loc fs
    else if dmzIsCity l then dmzClassifyLines rest cn l fs
    else if dmzIsRole l then dmzClassifyLines rest cn loc (fs ++ [l])
    else dmzClassifyLines rest cn loc fs

/-- Python `[line.strip() for line in element_text.split('\n') if line.strip()]`
(v3 line 111). -/
def dmzLines (t : PyStr) : List PyStr :=
  ((splitLines t).map pyStrip).filter (fun l => l ≠ [])

/-- Build the record appended at v3 lines 142-152. -/
def dmzMkRecord (cn loc : PyStr) (fs : List PyStr) : DmzRecord :=
  { founder_name := pyJoin " | ".data fs, company_name := cn, location := loc,
    source := "DMZ Startup Directory".data }

/-- The per-element loop of `scrape_dmz_improved` (v3 lines 104-161) over one
selector's elements: state is `(found_companies, founders_data)`; the returned
flag is true when `len(founders_data) >= max_companies` triggered the early
`return` out of the whole function. -/
def dmzProcessElements (maxC : Nat) :
    List PyStr → List DmzRecord → List DmzRecord → List DmzRecord × List DmzRecord × Bool
  | [], found, data => (found, data, false)
  | txt :: rest, found, data =>
    let t := pyStrip txt
    if t.length < 20 then dmzProcessElements maxC rest found data
    else
      let c := dmzClassifyLines (dmzLines t) [] [] []
      if c.1 ≠ [] ∧ c.2.1 ≠ [] then
        if dmzRegionKeywords.any (fun k => pyContains k (lowerStr c.2.1)) then
          if found.any (fun ex => ex.company_name == c.1) then
            dmzProcessElements maxC rest found data
          else
            let r := dmzMkRecord c.1 c.2.1 c.2.2
            let data2 := data ++ [r]
            if maxC ≤ data2.length then (found ++ [r], data2, true)
            else dmzProcessElements maxC rest (found ++ [r]) data2
        else dmzProcessElements maxC rest found data
      else dmzProcessElements maxC rest found data

/-- The selector loop of `scrape_dmz_improved` (v3 lines 88-165): every
selector's elements (capped at 50 by `elements[:50]`) are processed in turn;
there is no break after a selector that yielded candidates, only the
max-companies early return stops the loop. -/
def dmzSelectorsPhase (maxC : Nat) :
    List (List PyStr) → List DmzRecord → List DmzRecord → List DmzRecord × List DmzRecord × Bool
  | [], found, data => (found, data, false)
  | elems :: rest, found, data =>
    match dmzProcessElements maxC (elems.take 50) found data with
    | (found2, data2, true) => (found2, data2, true)
    | (found2, data2, false) => dmzSelectorsPhase maxC rest found2 data2

/-- Words skipped by the fallback text parser (v3 line 182). -/
def dmzFallbackSkip : List PyStr :=
  ["current".data, "alumni".data, "acquired".data, "visit company".data, "our team".data,
   "ai".data, "b2b".data, "b2c".data, "saas".data]

/-- City substrings of the fallback lookahead (v3 line 190). -/
def dmzFallbackCities : List PyStr :=
  ["toronto".data, "kitchener".data, "waterloo".data, "cambridge".data, "guelph".data,
   "ontario".data, "markham".data, "etobicoke".data, "ottawa".data]

/-- The location lookahead of the fallback parser (v3 lines 188-192): scan the
next up-to-9 raw lines for the first city line, empty when none. -/
def dmzLookaheadLoc : Nat → List PyStr → PyStr
  | 0, _ => []
  | _ + 1, [] => []
  | n + 1, l :: rest =>
    let nl := pyStrip l
    if dmzFallbackCities.any (fun c => pyContains c (lowerStr nl)) then nl
    else dmzLookaheadLoc n rest

/-- The fallback whole-page text parser of `scrape_dmz_improved`
(v3 lines 173-207): a while loop over raw page lines guarded by
`len(self.founders_data) < self.max_companies`. -/
def dmzTextParse (maxC : Nat) : List PyStr → List DmzRecord → List DmzRecord
  | [], data => data
  | l :: rest, data =>
    if data.length < maxC then
      let line := pyStrip l
      if (3 < line.length ∧ line.length < 100)
          ∧ ¬ dmzFallbackSkip.contains (lowerStr line)
          ∧ ¬ pyStartsWith "#".data line
          ∧ line.any Char.isAlpha then
        let loc := dmzLookaheadLoc 9 rest
        if loc ≠ [] ∧ dmzRegionKeywords.any (fun k => pyContains k (lowerStr loc)) then
          if data.any (fun ex => ex.company_name == line) then dmzTextParse maxC rest data
          else
            dmzTextParse maxC rest
              (data ++ [{ founder_name := [], company_name := line, location := loc,
                          source := "DMZ Startup Directory".data }])
        else dmzTextParse maxC rest data
      else dmzTextParse maxC rest data
    else data

/-- A DMZ directory page, modelled by what `scrape_dmz_improved` reads from
it: the body text (used by the fallback parser) and, for each of the 8
company selectors in priority order, the `.text` of every element the
selector matched inside the chosen container. -/
structure DmzPage where
  pageText : PyStr
  selectorElements : List (List PyStr)

/-- Model of `scrape_dmz_improved` (ZZZWebScraperWVGv3.py lines 28-210): run the
selector phase over `found_companies := []`; on early return keep the data;
otherwise run the fallback text parser only when no selector produced a
company. -/
def scrape_dmz_improved (maxC : Nat) (data0 : List DmzRecord) (page : DmzPage) :
    List DmzRecord :=
  match dmzSelectorsPhase maxC page.selectorElements [] data0 with
  | (_, data, true) => data
  | (found, data, false) =>
    if found.length = 0 then dmzTextParse maxC (splitLines page.pageText) data
    else data

/-- Role keywords of the founder loop in `scrape_velocity_improved`
(v3 line 272). -/
def velocityImprovedRoleKws : List PyStr :=
  ["founder".data, "ceo".data, "co-founder".data, "founder &".data, "co-founder &".data]

/-- The founder-extraction loop of `scrape_velocity_improved` (v3 lines
266-277): scan the element's `p, span, div` sub-element texts and keep the
FIRST stripped text containing a role keyword — the loop breaks after the
first match. -/
def velocity_improved_founder_name : List PyStr → PyStr
  | [] => []
  | t :: rest =>
    let s := pyStrip t
    if s ≠ [] ∧ velocityImprovedRoleKws.any (fun k => pyContains k (lowerStr s)) then s
    else velocity_improved_founder_name rest

/-! ## velocity_scraper.py: company-link strategies (lines 169-205) -/

/-- The filter-and-normalize step applied to one selector's link hrefs
(velocity_scraper.py lines 182-188): keep hrefs containing "company" or
"view" (case-insensitive), making root-relative ones absolute.  An element
whose `get_attribute('href')` is `None` is skipped. -/
def velocityCollectLinks (hrefs : List (Option PyStr)) : List PyStr :=
  hrefs.filterMap (fun h? =>
    match h? with
    | none => none
    | some h =>
      if pyContains "company".data (lowerStr h) ∨ pyContains "view".data (lowerStr h) then
        some (if pyStartsWith "/".data h then "https://www.velocityincubator.com".data ++ h
              else h)
      else none)

/-- The selector loop of `scrape_velocity_companies` (velocity_scraper.py
lines 179-192): selectors are tried in order and the loop breaks as soon as
`company_links` is non-empty, so the first link-yielding selector wins. -/
def velocityFindCompanyLinks : List (List (Option PyStr)) → List PyStr
  | [] => []
  | sel :: rest =>
    let cl := velocityCollectLinks sel
    if cl.isEmpty then velocityFindCompanyLinks rest else cl

/-! ## velocity_scraper.py: `export_to_excel` cell serialization (lines 483-507) -/

/-- The multi-valued cell serializer of `export_to_excel` (velocity_scraper.py
lines 495-496): `'; '.join(vals) if vals else ''`. -/
def exportJoinCell (vals : List PyStr) : PyStr :=
  if vals ≠ [] then pyJoin "; ".data vals else []

/-- Python `cell.split('; ')`, the two-character-separator split used to
re-parse a serialized multi-valued cell.  Leftmost occurrences of `"; "` are
consumed first; `''.split('; ') = ['']`. -/
def pySplitSep : PyStr → List PyStr
  | [] => [[]]
  | [c] => [[c]]
  | c1 :: c2 :: rest =>
    if c1 = ';' ∧ c2 = ' ' then [] :: pySplitSep rest
    else
      match pySplitSep (c2 :: rest) with
      | [] => [[c1]]
      | s :: ss => (c1 :: s) :: ss

/-- Modelled from the spec: "re-parsing multi-valued fields (split on `'; '`)".
The repository only serializes (`export_to_excel`); the re-parsing direction
of the round-trip exists only in the spec and is modelled as Python
`cell.split('; ')`. -/
def reparseCell (cell : PyStr) : List PyStr := pySplitSep cell

/-! ## velocity_scraper.py: join-year extraction and `process_company`

The join-year detector (`extract_velocity_join_year`, lines 101-155) scans
element texts and the raw page HTML with Python regexes.  The regexes are
reimplemented below as character scanners with explicit fuel (the string
length), reproducing `re.findall` semantics: positions are tried left to
right, a match is consumed, scanning resumes after it. -/

/-- Test for `\b` at the start of the remaining input: true when the next character is
not a word character (or the input ended). -/
def atWordBoundary : PyStr → Bool
  | [] => true
  | c :: _ => ¬ isWordChar c

/-- Recognize `202[3-5]` followed by `\b` at the head of the input, returning
the year and the rest.  (`'3'..'5'` are code points 51..53.) -/
def yearHead : PyStr → Option (Nat × PyStr)
  | '2' :: '0' :: '2' :: d :: rest =>
    if (51 ≤ d.toNat ∧ d.toNat ≤ 53) ∧ atWordBoundary rest then
      some (2020 + (d.toNat - 48), rest)
    else none
  | _ => none

/-- Python `re.findall(r'\b(202[3-5])\b', s)`: scan every position, requiring a word
boundary before the match; on failure advance one character. -/
def scanYears : Nat → Bool → PyStr → List Nat
  | 0, _, _ => []
  | _ + 1, _, [] => []
  | fuel + 1, prev, c :: rest =>
    match (if ¬ prev then yearHead (c :: rest) else none) with
    | some (y, r) => y :: scanYears fuel true r
    | none => scanYears fuel (isWordChar c) rest

/-- All `\b(202[3-5])\b` matches of `s`, in order. -/
def findRecentYears (s : PyStr) : List Nat := scanYears s.length false s

/-- The `[:\s]` class of the join-year regexes. -/
def isColonWs (c : Char) : Bool := c == ':' || isWsChar c

/-- Match a literal, returning the rest. -/
def eatLit (lit s : PyStr) : Option PyStr :=
  if pyStartsWith lit s then some (s.drop lit.length) else none

/-- Match `p+` (one or more characters of class `p`), greedily. -/
def eatPlus (p : Char → Bool) (s : PyStr) : Option PyStr :=
  if s.takeWhile p = [] then none else some (s.dropWhile p)

/-- Match `(\d{4})`, returning the captured number and the rest. -/
def eatDigits4 : PyStr → Option (Nat × PyStr)
  | d1 :: d2 :: d3 :: d4 :: rest =>
    if isDigitChar d1 ∧ isDigitChar d2 ∧ isDigitChar d3 ∧ isDigitChar d4 then
      some (((d1.toNat - 48) * 10 + (d2.toNat - 48)) * 100 +
              (d3.toNat - 48) * 10 + (d4.toNat - 48), rest)
    else none
  | _ => none

/-- Regex `r'year\s+joined[:\s]+(\d{4})'` at the head of the input. -/
def matchYearJoined (s : PyStr) : Option (Nat × PyStr) := do
  let s ← eatLit "year".data s
  let s ← eatPlus isWsChar s
  let s ← eatLit "joined".data s
  let s ← eatPlus isColonWs s
  eatDigits4 s

/-- Regex `r'joined[:\s]+(\d{4})'` at the head of the input. -/
def matchJoinedYear (s : PyStr) : Option (Nat × PyStr) := do
  let s ← eatLit "joined".data s
  let s ← eatPlus isColonWs s
  eatDigits4 s

/-- Regex `r'velocity[:\s]+(\d{4})'` at the head of the input. -/
def matchVelocityYear (s : PyStr) : Option (Nat × PyStr) := do
  let s ← eatLit "velocity".data s
  let s ← eatPlus isColonWs s
  eatDigits4 s

/-- Regex `r'since[:\s]+(\d{4})'` at the head of the input. -/
def matchSinceYear (s : PyStr) : Option (Nat × PyStr) := do
  let s ← eatLit "since".data s
  let s ← eatPlus isColonWs s
  eatDigits4 s

/-- Regex `r'(\d{4})[:\s]*(?:joined|velocity|program)'` at the head of the input;
the alternatives are tried in regex order. -/
def matchYearThenKeyword (s : PyStr) : Option (Nat × PyStr) := do
  let (y, s1) ← eatDigits4 s
  let s2 := s1.dropWhile isColonWs
  match eatLit "joined".data s2 with
  | some r => some (y, r)
  | none =>
    match eatLit "velocity".data s2 with
    | some r => some (y, r)
    | none =>
      match eatLit "program".data s2 with
      | some r => some (y, r)
      | none => none

/-- Python `re.findall(pattern, s)` for the boundary-free join patterns: try the
matcher at every position left to right, consuming matches.  The fuel is the
string length; every pattern consumes at least one character. -/
def reFindAll (m : PyStr → Option (Nat × PyStr)) : Nat → PyStr → List Nat
  | 0, _ => []
  | _ + 1, [] => []
  | fuel + 1, c :: rest =>
    match m (c :: rest) with
    | some (y, r) => y :: reFindAll m fuel r
    | none => reFindAll m fuel rest

/-- The `join_patterns` loop of `extract_velocity_join_year` (lines 131-144):
for each pattern in order, the first match whose year lies in 2023..2025 is
returned.  `re.IGNORECASE` is modelled by lowering the content (the pattern
literals are lower-case and the other classes are case-free). -/
def joinPatternYear (content : PyStr) : Option Nat :=
  let lc := lowerStr content
  [matchYearJoined, matchJoinedYear, matchVelocityYear, matchSinceYear,
   matchYearThenKeyword].findSome?
    (fun m => (reFindAll m lc.length lc).find? (fun y => 2023 ≤ y ∧ y ≤ 2025))

/-- The per-element check of the selector phase (lines 113-124):
`if text and ('joined' in text.lower() or 'velocity' in text.lower())`, then
the first `\b(202[3-5])\b` match is returned (none if there is no match). -/
def elementJoinYear (t : PyStr) : Option Nat :=
  if t ≠ [] ∧ (pyContains "joined".data (lowerStr t) ∨ pyContains "velocity".data (lowerStr t))
  then
    match findRecentYears t with
    | [] => none
    | y :: _ => some y
  else none

/-- The selector phase of `extract_velocity_join_year` (lines 104-124): the
first element (across the selectors in order) yielding a year wins. -/
def phase1JoinYear (sels : List (List (Option PyStr))) : Option Nat :=
  sels.findSome? (fun elems => elems.findSome? (fun t? => t?.bind elementJoinYear))

/-- The final fallback of `extract_velocity_join_year` (lines 146-150): the
minimum over all `\b(202[3-5])\b` matches of the page content. -/
def fallbackRecentYear (content : PyStr) : Option Nat :=
  match findRecentYears content with
  | [] => none
  | y :: ys => some (ys.foldl Nat.min y)

/-- A Velocity company page, modelled by what `process_company` and its
helpers read from it.  The `locator(...).all()` texts of each selector list
appear in order; a `none` entry is a `text_content()`/`get_attribute` that
returned `None`.  `founderLinkedinResults` is the list
`extract_founder_linkedins` would return: that helper navigates a separately
fetched LinkedIn page, so its outcome is an input of the model. -/
structure VPage where
  /-- element texts per selector of `extract_velocity_join_year` (5 selectors). -/
  joinYearSelTexts : List (List (Option PyStr))
  /-- Value of `page.content()`, the raw page HTML. -/
  content : PyStr
  /-- per selector of `extract_company_name` (5 selectors), the text of
  `locator(sel).first` (none when the probe raised and was caught). -/
  nameTexts : List (Option PyStr)
  /-- Value of `page.title()` (none when it raised). -/
  title : Option PyStr
  /-- element texts per selector of `extract_founders` (6 selectors). -/
  founderSelTexts : List (List (Option PyStr))
  /-- element hrefs per selector of `extract_company_linkedin` (3 selectors). -/
  linkedinSelHrefs : List (List (Option PyStr))
  /-- the result of the `extract_founder_linkedins` sub-scrape. -/
  founderLinkedinResults : List PyStr

/-- Model of `extract_velocity_join_year` (velocity_scraper.py lines 101-155): selector
phase, then the content patterns, then the recent-year fallback. -/
def extract_velocity_join_year (p : VPage) : Option Nat :=
  match phase1JoinYear p.joinYearSelTexts with
  | some y => some y
  | none =>
    match joinPatternYear p.content with
    | some y => some y
    | none => fallbackRecentYear p.content

/-- Model of `extract_company_name` (lines 302-332): first selector text with a
non-empty strip, else the page title (its part before `'|'`, stripped), else
"Unknown Company". -/
def extract_company_name (p : VPage) : PyStr :=
  match p.nameTexts.findSome? (fun t? => t?.bind (fun t =>
      if t ≠ [] ∧ 0 < (pyStrip t).length then some (pyStrip t) else none)) with
  | some n => n
  | none =>
    match p.title with
    | some t =>
      if t ≠ [] ∧ pyContains "|".data t then
        pyStrip ((splitOnChar '|' t).headD [])
      else if t ≠ [] then pyStrip t
      else "Unknown Company".data
    | none => "Unknown Company".data

/-- Words filtered out of name matches (`extract_names_from_text` line 373). -/
def nameFalsePositives : List PyStr :=
  ["company".data, "inc".data, "llc".data, "corp".data, "ltd".data]

/-- Match `[A-Z][a-z]+` at the head of the input (greedy lower-case run). -/
def matchCapWord : PyStr → Option (PyStr × PyStr)
  | [] => none
  | c :: rest =>
    if isUpperChar c then
      let run := rest.takeWhile isLowerChar
      if run ≠ [] then some (c :: run, rest.dropWhile isLowerChar) else none
    else none

/-- Match `r'[A-Z][a-z]+ (?:[A-Z]\. )?[A-Z][a-z]+'` with the trailing `\b` at
the head of the input (the leading `\b` is the caller's duty).  The optional
middle-initial group is tried greedily first; when its continuation fails the
regex backtracks to the group-free alternative. -/
def matchNameAt (s : PyStr) : Option (PyStr × PyStr) := do
  let (w1, s1) ← matchCapWord s
  match s1 with
  | ' ' :: s2 =>
    let withMid : Option (PyStr × PyStr) :=
      match s2 with
      | u :: '.' :: ' ' :: s3 =>
        if isUpperChar u then
          match matchCapWord s3 with
          | some (w2, s4) =>
            if atWordBoundary s4 then some (w1 ++ ' ' :: u :: '.' :: ' ' :: w2, s4) else none
          | none => none
        else none
      | _ => none
    match withMid with
    | some r => some r
    | none =>
      match matchCapWord s2 with
      | some (w2, s4) =>
        if atWordBoundary s4 then some (w1 ++ ' ' :: w2, s4) else none
      | none => none
  | _ => none

/-- Python `re.findall` for the name pattern, with the leading `\b` tracked through
a previous-character-is-word flag. -/
def scanNames : Nat → Bool → PyStr → List PyStr
  | 0, _, _ => []
  | _ + 1, _, [] => []
  | fuel + 1, prev, c :: rest =>
    match (if ¬ prev then matchNameAt (c :: rest) else none) with
    | some (cap, r) => cap :: scanNames fuel true r
    | none => scanNames fuel (isWordChar c) rest

/-- Model of `extract_names_from_text` (lines 363-376): the name-pattern matches minus
the configured false positives. -/
def extract_names_from_text (t : PyStr) : List PyStr :=
  (scanNames t.length false t).filter (fun n =>
    ¬ nameFalsePositives.any (fun w => pyContains w (lowerStr n)))

/-- Model of `extract_founders` (lines 334-361): collect names from every selector's
element texts, then `list(set([name.strip() for name in founders if
name.strip()]))` (set order modelled as first occurrences). -/
def extract_founders (p : VPage) : List PyStr :=
  let all := p.founderSelTexts.foldl (fun acc elems =>
    elems.foldl (fun a t? =>
      match t? with
      | some t => a ++ extract_names_from_text t
      | none => a) acc) []
  pyDedup (((all.map pyStrip).filter (fun n => n ≠ [])))

/-- Model of `extract_company_linkedin` (lines 378-396): the first href containing
"linkedin.com/company" across the selectors. -/
def extract_company_linkedin (p : VPage) : Option PyStr :=
  p.linkedinSelHrefs.findSome? (fun elems => elems.findSome? (fun h? => h?.bind (fun h =>
    if pyContains "linkedin.com/company".data h then some h else none)))

/-- The company dict built by `process_company` (lines 282-291; the Python
keys are Company/Founders/Linkedins). -/
structure VCompanyData where
  company : PyStr
  founders : List PyStr
  linkedins : List PyStr
deriving DecidableEq, Repr

/-- The part of `process_company` after the join-year gate (lines 269-293). -/
def process_company_rest (p : VPage) : Option VCompanyData :=
  let company_name := extract_company_name p
  let founders := extract_founders p
  let linkedin_url := extract_company_linkedin p
  if company_name = [] then none
  else
    some { company := company_name, founders := founders,
           linkedins :=
             if linkedin_url.isSome ∧ founders ≠ [] then p.founderLinkedinResults else [] }

/-- Model of `process_company` (velocity_scraper.py lines 246-300): skip the company
when a join year was detected and lies before 2023; when no join year is
detected, proceed with extraction anyway. -/
def process_company (p : VPage) : Option VCompanyData :=
  match extract_velocity_join_year p with
  | some y => if y < 2023 then none else process_company_rest p
  | none => process_company_rest p

/-! ## Concrete fixtures used by the witness and counterexample theorems -/

/-- A v1 candidate element carrying only a heading. -/
def c1WitnessElem : BsElement :=
  { headingText := some "Acme".data, nameDivText := none, founderDivText := none,
    mailtoHref := none, linkedinHref := none, twitterHref := none, httpHref := none,
    fullText := [] }

/-- The record `extract_founder_info` yields on `c1WitnessElem`. -/
def c1WitnessRec : FounderRecord :=
  { founder_name := [], company_name := "Acme".data, source := "Velocity Incubator".data,
    email := none, linkedin := none, twitter := none, website := none }

/-- A v1 candidate element whose first http link is a plain website. -/
def c4WitnessElem : BsElement :=
  { headingText := some "Acme".data, nameDivText := none, founderDivText := none,
    mailtoHref := none, linkedinHref := none, twitterHref := none,
    httpHref := some "https://acme.example".data, fullText := [] }

/-- The record `extract_founder_info` yields on `c4WitnessElem`. -/
def c4WitnessRec : FounderRecord :=
  { founder_name := [], company_name := "Acme".data, source := "Communitech".data,
    email := none, linkedin := none, twitter := none,
    website := some "https://acme.example".data }

/-- A DMZ record already present in `found_companies`. -/
def c2WitnessRec : DmzRecord :=
  { founder_name := [], company_name := "Acme Robotics".data,
    location := "Kitchener, Ontario".data, source := "DMZ Startup Directory".data }

/-- A DMZ page whose single selector yields two candidates whose company
names differ only in letter case. -/
def dmzPageC2 : DmzPage :=
  { pageText := [],
    selectorElements :=
      [["Acme Robotics\nKitchener, Ontario".data,
        "acme robotics\nKitchener, Ontario".data]] }

/-- A DMZ page where the first selector already yields a non-trivial
candidate and a second selector yields another one. -/
def dmzPageC5 : DmzPage :=
  { pageText := [],
    selectorElements :=
      [["Acme Robotics Corp\nKitchener, Ontario".data],
       ["Beta Widgets Corp\nWaterloo, Ontario".data]] }

/-- A DMZ page with one candidate of trimmed length exactly 20. -/
def dmzPageC6 : DmzPage :=
  { pageText := [], selectorElements := [["Acme Co\nKitchener ON".data]] }

/-- A DMZ page with one valid candidate, used against the cap `N = 0`. -/
def dmzPageC7 : DmzPage :=
  { pageText := [],
    selectorElements := [["Acme Robotics Corp\nKitchener, Ontario".data]] }

/-- A Velocity company page with no detectable join year and an
empty-stripping company name (every name probe fails and the page title is a
single blank). -/
def vPageC10 : VPage :=
  { joinYearSelTexts := [[], [], [], [], []], content := "hello world".data,
    nameTexts := [none, none, none, none, some " ".data], title := some " ".data,
    founderSelTexts := [[], [], [], [], [], []], linkedinSelHrefs := [[], [], []],
    founderLinkedinResults := [] }

/-- A Velocity company page with no detectable join year and a proper company
name. -/
def vPageC10w : VPage :=
  { joinYearSelTexts := [[], [], [], [], []], content := "hello world".data,
    nameTexts := [some "Acme Inc".data, none, none, none, none],
    title := some "Acme | Home".data,
    founderSelTexts := [[some "Jane Roe, Founder of things".data], [], [], [], [], []],
    linkedinSelHrefs := [[], [], []], founderLinkedinResults := [] }

/-! ## Theorems -/

/-- C1 (amended): for `extract_founder_info` — the extractor shared by the
Velocity Incubator, Communitech, BetaKit and Innovation Guelph sources — a
Record is returned only if the extracted company name or the extracted
founder name is non-empty; a candidate with neither yields `None`.  (The
AngelList/F6S extractors of v2 lack this gate, see the counterexample.) -/
theorem extract_founder_info_requires_identity (e : BsElement) (src : PyStr)
    (r : FounderRecord) (h : extract_founder_info e src = some r) :
    r.company_name ≠ [] ∨ r.founder_name ≠ [] := by
  simp only [extract_founder_info] at h
  split at h
  · next hcond =>
    injection h with h2
    subst h2
    simpa using hcond
  · exact absurd h (by simp)

/-- Witness for C1: `extract_founder_info` on a heading-only element returns
a record, whose company name is indeed non-empty. -/
theorem extract_founder_info_requires_identity_witness :
    c1WitnessRec.company_name ≠ [] ∨ c1WitnessRec.founder_name ≠ [] :=
  extract_founder_info_requires_identity c1WitnessElem "Velocity Incubator".data
    c1WitnessRec (by decide)

/-- Counterexample for C1: `extract_angel_list_info` (v2) returns a Record
for a candidate whose extracted company name and founder name are both
empty — the per-candidate extraction of the AngelList source has no
non-empty-identity gate. -/
theorem extract_angel_list_info_keeps_empty_record :
    extract_angel_list_info
        { nameElemText := some " ".data, founderElemText := some "".data,
          websiteHref := some "https://example.com".data } =
      some { founder_name := [], company_name := [], source := "AngelList".data,
             email := none, linkedin := none, twitter := none,
             website := some "https://example.com".data } := by decide

/-- C4 (amended): in `extract_founder_info` (v1), a URL is stored in the
`website` channel only if it contains none of the social hostnames
"linkedin.com", "twitter.com", "x.com".  (The mailto/linkedin/twitter
channels each come from a single first-match probe, so at most one URL per
channel-kind is kept.  `extract_velocity_fund_info` of v2 does not follow
this rule, see the counterexample.) -/
theorem extract_founder_info_website_excludes_socials (e : BsElement) (src : PyStr)
    (r : FounderRecord) (u : PyStr) (h : extract_founder_info e src = some r)
    (hw : r.website = some u) :
    pyContains "linkedin.com".data u = false ∧ pyContains "twitter.com".data u = false ∧
      pyContains "x.com".data u = false := by
  simp only [extract_founder_info] at h
  split at h
  · injection h with h2
    subst h2
    dsimp only at hw
    rcases he : e.httpHref with _ | v
    · rw [he] at hw
      dsimp only at hw
      exact absurd hw (by simp)
    · rw [he] at hw
      dsimp only at hw
      split at hw
      · next hcond =>
        injection hw with h3
        subst h3
        simp only [not_or, Bool.not_eq_true] at hcond
        exact ⟨hcond.1, hcond.2.1, hcond.2.2⟩
      · exact absurd hw (by simp)
  · exact absurd h (by simp)

/-- Witness for C4: the URL kept as website for a concrete element contains
none of the social hostnames. -/
theorem extract_founder_info_website_excludes_socials_witness :
    pyContains "linkedin.com".data "https://acme.example".data = false ∧
      pyContains "twitter.com".data "https://acme.example".data = false ∧
      pyContains "x.com".data "https://acme.example".data = false :=
  extract_founder_info_website_excludes_socials c4WitnessElem "Communitech".data
    c4WitnessRec "https://acme.example".data (by decide) (by decide)

/-- Counterexample for C4: `extract_velocity_fund_info` (v2) stores the first
http link as `website` even when it is a linkedin.com URL — the
hostname-exclusion rule does not hold for that extractor. -/
theorem extract_velocity_fund_website_unfiltered :
    extract_velocity_fund_info
        { headingText := some "Acme".data, nameDivText := none, founderDivText := none,
          httpHref := some "https://www.linkedin.com/company/acme".data } =
      some { founder_name := [], company_name := "Acme".data,
             source := "Velocity Fund".data,
             email := none, linkedin := none, twitter := none,
             website := some "https://www.linkedin.com/company/acme".data } ∧
      pyContains "linkedin.com".data "https://www.linkedin.com/company/acme".data = true := by
  decide

/-- C2 (amended): the DMZ deduplication keys on EXACT, case-sensitive
equality of the raw `company_name`: a candidate classifying to a company name
already present in `found_companies` is dropped entirely (its founder lines
are not merged into the existing record). -/
theorem dmz_exact_duplicate_dropped (maxC : Nat) (txt : PyStr) (rest : List PyStr)
    (found data : List DmzRecord)
    (h : found.any (fun ex =>
        ex.company_name == (dmzClassifyLines (dmzLines (pyStrip txt)) [] [] []).1) = true) :
    dmzProcessElements maxC (txt :: rest) found data =
      dmzProcessElements maxC rest found data := by
  simp only [dmzProcessElements, h]
  split
  · rfl
  · split
    · split
      · rfl
      · rfl
    · rfl

/-- Witness for C2: a candidate whose company name is already in
`found_companies` leaves the state unchanged. -/
theorem dmz_exact_duplicate_dropped_witness :
    dmzProcessElements 50 ["Acme Robotics\nKitchener, Ontario".data]
        [c2WitnessRec] [c2WitnessRec] =
      dmzProcessElements 50 [] [c2WitnessRec] [c2WitnessRec] :=
  dmz_exact_duplicate_dropped 50 "Acme Robotics\nKitchener, Ontario".data []
    [c2WitnessRec] [c2WitnessRec] (by decide)

/-- Counterexample for C2: two candidates whose company names are equal after
the claimed normalization (they differ only in letter case) both survive as
separate records — nothing is merged and no normalized key is used. -/
theorem dmz_case_variants_not_merged :
    (scrape_dmz_improved 50 [] dmzPageC2).map (fun r => r.company_name) =
      ["Acme Robotics".data, "acme robotics".data] ∧
      lowerStr "Acme Robotics".data = lowerStr "acme robotics".data ∧
      "Acme Robotics".data ≠ "acme robotics".data := by decide

/-- C3 (amended): the DMZ classifiers (`scrape_dmz_improved` of v3,
`extract_dmz_info` of v2) do collect EVERY role-matching line: once the
company name is assigned, the founder accumulator ends up extended by exactly
the lines that match a role keyword (and are neither skip-words nor location
lines, which the earlier elif branches consume).  The Velocity classifier of
v3 keeps only the first matching line, see the counterexample. -/
theorem dmz_classify_collects_all_roles (lines : List PyStr) (cn loc : PyStr)
    (fs : List PyStr) (h : cn ≠ []) :
    (dmzClassifyLines lines cn loc fs).2.2 =
      fs ++ lines.filter (fun l => !dmzIsSkip l && !dmzIsCity l && dmzIsRole l) := by
  induction lines generalizing loc fs with
  | nil => simp [dmzClassifyLines]
  | cons l rest ih =>
    simp only [dmzClassifyLines, List.filter_cons]
    by_cases hskip : dmzIsSkip l
    · simp [hskip, ih]
    · rw [if_neg (by simpa using hskip)]
      rw [if_neg (fun hc => h hc.1)]
      by_cases hcity : dmzIsCity l
      · simp [hskip, hcity, ih]
      · rw [if_neg (by simpa using hcity)]
        by_cases hrole : dmzIsRole l
        · simp only [hrole, if_pos]
          simp [hskip, hcity, hrole, ih, List.append_assoc]
        · simp [hskip, hcity, hrole, ih]

/-- Witness for C3: with the company name assigned, two role lines are both
appended to the founder list. -/
theorem dmz_classify_collects_all_roles_witness :
    (dmzClassifyLines ["Jane Roe, CEO".data, "John Doe, Founder".data]
        "Acme".data [] []).2.2 =
      [] ++ (["Jane Roe, CEO".data, "John Doe, Founder".data].filter
        (fun l => !dmzIsSkip l && !dmzIsCity l && dmzIsRole l)) :=
  dmz_classify_collects_all_roles ["Jane Roe, CEO".data, "John Doe, Founder".data]
    "Acme".data [] [] (by decide)

/-- Counterexample for C3: the founder loop of `scrape_velocity_improved`
(v3 lines 266-277) keeps only the FIRST role-matching line: the second line
also matches a role keyword but is not collected. -/
theorem velocity_improved_keeps_first_role_line_only :
    velocity_improved_founder_name ["Jane Roe, CEO".data, "John Doe, Founder".data] =
      "Jane Roe, CEO".data ∧
      velocityImprovedRoleKws.any
        (fun k => pyContains k (lowerStr "John Doe, Founder".data)) = true := by decide

/-- C5 (amended): in `scrape_velocity_companies` (velocity_scraper.py) the
first selector that contributes at least one company link determines the
entire link set — later selectors are not consulted.  (The selector loop of
`scrape_dmz_improved` has no such break, see the counterexample.) -/
theorem velocity_first_strategy_wins (sel : List (Option PyStr))
    (rest : List (List (Option PyStr))) (h : velocityCollectLinks sel ≠ []) :
    velocityFindCompanyLinks (sel :: rest) = velocityCollectLinks sel := by
  simp only [velocityFindCompanyLinks]
  rw [if_neg (by simpa [List.isEmpty_iff] using h)]

/-- Witness for C5: with a first selector yielding a link, a second selector
with its own link is ignored. -/
theorem velocity_first_strategy_wins_witness :
    velocityFindCompanyLinks [[some "/company/acme".data], [some "/company/beta".data]] =
      velocityCollectLinks [some "/company/acme".data] :=
  velocity_first_strategy_wins [some "/company/acme".data]
    [[some "/company/beta".data]] (by decide)

/-- Counterexample for C5: in `scrape_dmz_improved`, although the first
selector already yields a non-trivial candidate (37 characters), the second
selector's candidate is still processed and contributes a second record. -/
theorem dmz_lower_priority_selectors_still_used :
    (scrape_dmz_improved 50 [] dmzPageC5).map (fun r => r.company_name) =
      ["Acme Robotics Corp".data, "Beta Widgets Corp".data] ∧
      20 ≤ (pyStrip "Acme Robotics Corp\nKitchener, Ontario".data).length := by decide

/-- C6 (amended): a structurally matched element is SKIPPED iff its trimmed
text is strictly shorter than the 20-character threshold; an element whose
trimmed length equals the threshold is kept (the code tests `len < 20`, not
`len <= 20`). -/
theorem dmz_short_element_skipped (maxC : Nat) (txt : PyStr) (rest : List PyStr)
    (found data : List DmzRecord) (h : (pyStrip txt).length < 20) :
    dmzProcessElements maxC (txt :: rest) found data =
      dmzProcessElements maxC rest found data := by
  simp only [dmzProcessElements]
  rw [if_pos h]

/-- Witness for C6: a 4-character element is skipped. -/
theorem dmz_short_element_skipped_witness :
    dmzProcessElements 50 ["tiny".data] [] [] = dmzProcessElements 50 [] [] [] :=
  dmz_short_element_skipped 50 "tiny".data [] [] [] (by decide)

/-- Counterexample for C6: an element whose trimmed text has EXACTLY 20
characters (equal to the threshold) is kept and yields a record, contradicting
"an element whose trimmed text length is equal to or below the threshold is
skipped". -/
theorem dmz_threshold_length_element_kept :
    (pyStrip "Acme Co\nKitchener ON".data).length = 20 ∧
      (scrape_dmz_improved 50 [] dmzPageC6).map (fun r => r.company_name) =
        ["Acme Co".data] := by decide

/-- Cap invariant of the per-element loop: starting strictly below the cap,
the data list never exceeds the cap, and stays strictly below it unless the
early-return flag was raised. -/
theorem dmzProcessElements_length_le (maxC : Nat) (txts : List PyStr) :
    ∀ found data, data.length < maxC →
      (dmzProcessElements maxC txts found data).2.1.length ≤ maxC ∧
        ((dmzProcessElements maxC txts found data).2.2 = false →
          (dmzProcessElements maxC txts found data).2.1.length < maxC) := by
  induction txts with
  | nil =>
    intro found data h
    simp only [dmzProcessElements]
    exact ⟨Nat.le_of_lt h, fun _ => h⟩
  | cons txt rest ih =>
    intro found data h
    simp only [dmzProcessElements]
    split
    · exact ih found data h
    · split
      · split
        · split
          · exact ih found data h
          · split
            · next hle =>
              refine ⟨?_, fun hfalse => by cases hfalse⟩
              simpa using Nat.succ_le_of_lt h
            · next hgt =>
              exact ih _ _ (by simp only [not_le] at hgt; exact hgt)
        · exact ih found data h
      · exact ih found data h

/-- Cap invariant of the selector loop. -/
theorem dmzSelectorsPhase_length_le (maxC : Nat) (sels : List (List PyStr)) :
    ∀ found data, data.length < maxC →
      (dmzSelectorsPhase maxC sels found data).2.1.length ≤ maxC ∧
        ((dmzSelectorsPhase maxC sels found data).2.2 = false →
          (dmzSelectorsPhase maxC sels found data).2.1.length < maxC) := by
  induction sels with
  | nil =>
    intro found data h
    simp only [dmzSelectorsPhase]
    exact ⟨Nat.le_of_lt h, fun _ => h⟩
  | cons sel rest ih =>
    intro found data h
    simp only [dmzSelectorsPhase]
    have hp := dmzProcessElements_length_le maxC (sel.take 50) found data h
    rcases he : dmzProcessElements maxC (sel.take 50) found data with ⟨f2, d2, b⟩
    rw [he] at hp
    cases b
    · simpa using ih f2 d2 (by simpa using hp.2 rfl)
    · simpa using hp.1

/-- Cap invariant of the fallback text parser: its while loop is guarded by
`len(founders_data) < max_companies`, so it never exceeds the cap. -/
theorem dmzTextParse_length_le (maxC : Nat) (lines : List PyStr) :
    ∀ data, data.length ≤ maxC → (dmzTextParse maxC lines data).length ≤ maxC := by
  induction lines with
  | nil => intro d h; simpa [dmzTextParse]
  | cons l rest ih =>
    intro d h
    simp only [dmzTextParse]
    split
    · next hlt =>
      split
      · split
        · split
          · exact ih d h
          · exact ih _ (by simpa using Nat.succ_le_of_lt hlt)
        · exact ih d h
      · exact ih d h
    · exact h

/-- C7 (amended): for every cap `N ≥ 1`, a `scrape_dmz_improved` run starting
from an empty result list accumulates at most `N` records: the cap is checked
right after each append, and reaching it short-circuits the remaining
candidates, selectors and the fallback parser.  (For the degenerate cap
`N = 0` the check-after-append lets one record through, see the
counterexample.) -/
theorem scrape_dmz_capped (maxC : Nat) (page : DmzPage) (h : 1 ≤ maxC) :
    (scrape_dmz_improved maxC [] page).length ≤ maxC := by
  unfold scrape_dmz_improved
  have hp := dmzSelectorsPhase_length_le maxC page.selectorElements [] []
    (by simpa using h)
  rcases he : dmzSelectorsPhase maxC page.selectorElements [] [] with ⟨f, d, b⟩
  rw [he] at hp
  cases b
  · dsimp only
    split
    · exact dmzTextParse_length_le maxC (splitLines page.pageText) d
        (Nat.le_of_lt (by simpa using hp.2 rfl))
    · exact Nat.le_of_lt (by simpa using hp.2 rfl)
  · simpa using hp.1

/-- Witness for C7: with cap 1 and an empty page the result respects the cap. -/
theorem scrape_dmz_capped_witness :
    (scrape_dmz_improved 1 [] { pageText := [], selectorElements := [] }).length ≤ 1 :=
  scrape_dmz_capped 1 { pageText := [], selectorElements := [] } (by decide)

/-- Counterexample for C7: with the configured cap `N = 0` the accumulated
list still receives one record, because the cap is checked only AFTER a
record is appended — the list then contains more than `N` records. -/
theorem scrape_dmz_cap_zero_exceeded :
    (scrape_dmz_improved 0 [] dmzPageC7).length = 1 := by decide

/-- C8 (confirmed): a fetch failure (network error or non-2xx status raised
by `raise_for_status`) on one source is caught by that source's
`try/except`, which logs it and contributes no records; the run is the same
as the run without that source — every remaining source is still processed
and the run as a whole returns normally. -/
theorem run_scraping_skips_failed_source (pre post : List SourceCfg)
    (label msg : PyStr) (keep : BsElement → Bool) :
    run_scraping (pre ++ { label := label, keep := keep, fetched := .error msg } :: post) =
      run_scraping (pre ++ post) := by
  simp [run_scraping, scrape_source, List.map_append, List.flatten_append,
    filter_waterloo_region, List.filter_append]

/-- If a pattern does not occur in `c :: s` it does not occur in `s`. -/
theorem pyContains_tail (pat : PyStr) (c : Char) (s : PyStr)
    (h : pyContains pat (c :: s) = false) : pyContains pat s = false := by
  simp only [pyContains, Bool.or_eq_false_iff] at h
  exact h.2

/-- A Python split always yields at least one piece. -/
theorem pySplitSep_ne_nil (s : PyStr) : pySplitSep s ≠ [] := by
  induction s using pySplitSep.induct with
  | case1 => simp [pySplitSep]
  | case2 c => simp [pySplitSep]
  | case3 c1 c2 rest hif ih =>
    obtain ⟨rfl, rfl⟩ := hif
    simp [pySplitSep]
  | case4 c1 c2 rest hif hx ih => exact absurd hx ih
  | case5 c1 c2 rest hif l ls hx ih => simp [pySplitSep, hif, hx]

/-- Splitting a separator-free string yields the string itself. -/
theorem pySplitSep_no_sep (s : PyStr) (h : pyContains [';', ' '] s = false) :
    pySplitSep s = [s] := by
  induction s using pySplitSep.induct with
  | case1 => rfl
  | case2 c => rfl
  | case3 c1 c2 rest hif ih =>
    obtain ⟨rfl, rfl⟩ := hif
    simp [pyContains, pyStartsWith] at h
  | case4 c1 c2 rest hif hx ih => exact absurd hx (pySplitSep_ne_nil _)
  | case5 c1 c2 rest hif l ls hx ih =>
    have h2 := ih (pyContains_tail _ c1 _ h)
    rw [h2] at hx
    obtain ⟨rfl, rfl⟩ : c2 :: rest = l ∧ ls = [] := by
      cases hx; exact ⟨rfl, rfl⟩
    simp [pySplitSep, hif, h2]

/-- Splitting `s ++ "; " ++ t` for separator-free `s` peels off `s`. -/
theorem pySplitSep_sep_append (s t : PyStr) (h : pyContains [';', ' '] s = false) :
    pySplitSep (s ++ ';' :: ' ' :: t) = s :: pySplitSep t := by
  induction s using pySplitSep.induct with
  | case1 => simp [pySplitSep]
  | case2 c =>
    have hc : ¬(c = ';' ∧ ';' = ' ') := by simp
    simp [pySplitSep, hc]
  | case3 c1 c2 rest hif ih =>
    obtain ⟨rfl, rfl⟩ := hif
    simp [pyContains, pyStartsWith] at h
  | case4 c1 c2 rest hif hx ih => exact absurd hx (pySplitSep_ne_nil _)
  | case5 c1 c2 rest hif l ls hx ih =>
    have h2 := ih (pyContains_tail _ c1 _ h)
    have h3 : pySplitSep (c2 :: (rest ++ ';' :: ' ' :: t)) = (c2 :: rest) :: pySplitSep t := h2
    simp [pySplitSep, hif, h3]

/-- C9 (amended): serializing a non-empty multi-valued field whose values do
not contain the separator `"; "` and re-splitting the cell on `"; "` recovers
exactly the original value list (hence the original set).  (The round-trip
fails for an empty value list — the code serializes it as the empty cell,
which re-splits to `[""]`, not to the empty set — see the counterexample.) -/
theorem export_roundtrip_no_separator (vals : List PyStr) (h1 : vals ≠ [])
    (h2 : ∀ v ∈ vals, pyContains "; ".data v = false) :
    pySplitSep (exportJoinCell vals) = vals := by
  induction vals with
  | nil => cases h1 rfl
  | cons v rest ih =>
    rcases rest with _ | ⟨v2, rest'⟩
    · have hv : exportJoinCell [v] = v := by simp [exportJoinCell, pyJoin]
      rw [hv]
      exact pySplitSep_no_sep v (h2 v (by simp))
    · have hjoin : exportJoinCell (v :: v2 :: rest') =
          v ++ ';' :: ' ' :: exportJoinCell (v2 :: rest') := by
        simp [exportJoinCell, pyJoin]
      rw [hjoin, pySplitSep_sep_append _ _ (h2 v (by simp))]
      rw [ih (by simp) (fun u hu => h2 u (by simp [hu]))]

/-- Witness for C9: two founder names round-trip through the exported cell. -/
theorem export_roundtrip_no_separator_witness :
    pySplitSep (exportJoinCell ["Jane Roe".data, "John Doe".data]) =
      ["Jane Roe".data, "John Doe".data] :=
  export_roundtrip_no_separator ["Jane Roe".data, "John Doe".data]
    (by decide) (by decide)

/-- Counterexample for C9: an empty founder list serializes to the empty
cell, and re-splitting it yields `[""]` — a set containing the empty string,
not the original empty set, so the round-trip of the claim fails. -/
theorem export_roundtrip_fails_on_empty :
    pySplitSep (exportJoinCell []) = [[]] ∧ ([[]] : List PyStr) ≠ [] := by decide

/-- A `202[3-5]` match is at least 2023. -/
theorem yearHead_ge (s : PyStr) (y : Nat) (r : PyStr) (h : yearHead s = some (y, r)) :
    2023 ≤ y := by
  unfold yearHead at h
  split at h
  · split at h
    · next hc =>
      injection h with h2
      injection h2 with hy hr
      obtain ⟨⟨h51, h53⟩, -⟩ := hc
      omega
    · exact absurd h (by simp)
  · exact absurd h (by simp)

/-- Every year the `\b(202[3-5])\b` scanner finds is at least 2023. -/
theorem scanYears_ge (fuel : Nat) :
    ∀ prev s y, y ∈ scanYears fuel prev s → 2023 ≤ y := by
  induction fuel with
  | zero => intro _ _ y hy; simp [scanYears] at hy
  | succ n ih =>
    intro prev s y hy
    cases s with
    | nil => simp [scanYears] at hy
    | cons c rest =>
      simp only [scanYears] at hy
      rcases hm : (if ¬ prev then yearHead (c :: rest) else none) with _ | ⟨y2, r⟩
      · rw [hm] at hy
        exact ih _ _ y hy
      · rw [hm] at hy
        rcases List.mem_cons.mp hy with rfl | hy2
        · split at hm
          · exact yearHead_ge _ _ _ hm
          · exact absurd hm (by simp)
        · exact ih _ _ y hy2

/-- Every year `findRecentYears` returns is at least 2023. -/
theorem findRecentYears_ge (s : PyStr) (y : Nat) (h : y ∈ findRecentYears s) :
    2023 ≤ y :=
  scanYears_ge s.length false s y h

/-- A fold of `Nat.min` over years all at least 2023 stays at least 2023. -/
theorem foldl_min_ge_2023 (ys : List Nat) :
    ∀ a, 2023 ≤ a → (∀ z ∈ ys, 2023 ≤ z) → 2023 ≤ ys.foldl Nat.min a := by
  induction ys with
  | nil => intro a h _; simpa
  | cons z zs ih =>
    intro a h hz
    simp only [List.foldl_cons]
    exact ih _ (Nat.le_min.mpr ⟨h, hz z (by simp)⟩) (fun u hu => hz u (by simp [hu]))

/-- The selector phase of the join-year detector only yields years ≥ 2023. -/
theorem elementJoinYear_ge (t : PyStr) (y : Nat) (h : elementJoinYear t = some y) :
    2023 ≤ y := by
  unfold elementJoinYear at h
  split at h
  · rcases hf : findRecentYears t with _ | ⟨y0, ys⟩
    · rw [hf] at h; exact absurd h (by simp)
    · rw [hf] at h
      injection h with h2
      exact h2 ▸ findRecentYears_ge t y0 (by rw [hf]; exact List.mem_cons_self _ _)
  · exact absurd h (by simp)

/-- Phase `phase1JoinYear` only yields years ≥ 2023. -/
theorem phase1JoinYear_ge (sels : List (List (Option PyStr))) (y : Nat)
    (h : phase1JoinYear sels = some y) : 2023 ≤ y := by
  unfold phase1JoinYear at h
  obtain ⟨-, elems, -, -, h2, -⟩ := List.findSome?_eq_some_iff.mp h
  obtain ⟨-, t?, -, -, h3, -⟩ := List.findSome?_eq_some_iff.mp h2
  rcases t? with _ | t
  · exact absurd h3 (by simp)
  · exact elementJoinYear_ge t y (by simpa using h3)

/-- Phase `joinPatternYear` only yields years ≥ 2023 (each pattern loop filters on
`2023 <= year <= 2025`). -/
theorem joinPatternYear_ge (content : PyStr) (y : Nat)
    (h : joinPatternYear content = some y) : 2023 ≤ y := by
  unfold joinPatternYear at h
  obtain ⟨-, m, -, -, h2, -⟩ := List.findSome?_eq_some_iff.mp h
  have h3 := List.find?_some h2
  simp only [decide_eq_true_eq] at h3
  exact h3.1

/-- The recent-year fallback only yields years ≥ 2023. -/
theorem fallbackRecentYear_ge (content : PyStr) (y : Nat)
    (h : fallbackRecentYear content = some y) : 2023 ≤ y := by
  unfold fallbackRecentYear at h
  rcases hf : findRecentYears content with _ | ⟨y0, ys⟩
  · rw [hf] at h; exact absurd h (by simp)
  · rw [hf] at h
    injection h with h2
    exact h2 ▸ foldl_min_ge_2023 ys y0
      (findRecentYears_ge content y0 (by rw [hf]; exact List.mem_cons_self _ _))
      (fun z hz => findRecentYears_ge content z (by rw [hf]; exact List.mem_cons_of_mem _ hz))

/-- The join-year detector can only detect years ≥ 2023: each of its three
phases filters for `202[3-5]` or for the range 2023..2025. -/
theorem extract_velocity_join_year_ge (p : VPage) (y : Nat)
    (h : extract_velocity_join_year p = some y) : 2023 ≤ y := by
  unfold extract_velocity_join_year at h
  rcases h1 : phase1JoinYear p.joinYearSelTexts with _ | y1
  · rw [h1] at h
    rcases h2 : joinPatternYear p.content with _ | y2
    · rw [h2] at h
      exact fallbackRecentYear_ge p.content y h
    · rw [h2] at h
      injection h with h3
      exact h3 ▸ joinPatternYear_ge p.content y2 h2
  · rw [h1] at h
    injection h with h3
    exact h3 ▸ phase1JoinYear_ge p.joinYearSelTexts y1 h1

/-- C10 (amended): the join-year branch of `process_company` can never skip a
company — every detected join year is at least 2023, so the `join_year <
2023` skip branch is dead code; and when no join year is detected the company
is included provided the extracted company name is non-empty.  (A company
whose name extraction yields the empty string is still skipped even without a
join year, see the counterexample.) -/
theorem process_company_year_policy (p : VPage) :
    (∀ y, extract_velocity_join_year p = some y → 2023 ≤ y) ∧
      (extract_velocity_join_year p = none → extract_company_name p ≠ [] →
        process_company p ≠ none) := by
  refine ⟨fun y h => extract_velocity_join_year_ge p y h, fun hn hname => ?_⟩
  unfold process_company
  rw [hn]
  unfold process_company_rest
  rw [if_neg hname]
  simp

/-- Witness for C10: a concrete page with no detectable join year and a
proper company name is processed into a company record. -/
theorem process_company_year_policy_witness :
    process_company vPageC10w ≠ none :=
  (process_company_year_policy vPageC10w).2 (by decide) (by decide)

/-- Counterexample for C10: on a page with no detectable join year whose
company-name extraction yields the empty string (no name selector matches and
the page title is a single blank), `process_company` returns `None` — the
company is skipped, not "included anyway". -/
theorem process_company_skips_unnamed_company :
    extract_velocity_join_year vPageC10 = none ∧ process_company vPageC10 = none := by
  decide

end WVG
